import Mathlib

/-!
Verification development for the AI Artwork Catalog PDF generator.

Shallow embedding of the repository's core:
  * `services/ocr_service.py` / `services/extraction_service.py` — OCR wrapper,
  * the batch-extraction coordinator inlined in `streamlit_app.py` (lines 425-439),
  * `services/pdf_service.py` — the page-layout engine `build_ocr_pdf`,
  * `compute_logo_position` / `get_page_size_mm` from `streamlit_app.py`,
  * `load_user_settings` from `services/config_service.py`.

External collaborators (PIL image decoding, the Tesseract engine, the FPDF
drawing surface, the file system and the JSON parser) are modelled as explicit
function parameters; Python exceptions become `Except` values.
-/

namespace ArtworkCatalog

/-- Raw image content (`bytes` in Python), one natural number per byte. -/
abbrev ByteSeq := List Nat

/-- The two extraction failure modes of the OCR boundary: unreadable image
bytes (`PIL` raises on `Image.open`) and recognition-engine failure
(`pytesseract` raises). -/
inductive ExtractError where
  | decodeError
  | engineError
deriving Repr, DecidableEq

/-- An uploaded image: name plus raw bytes (the `images_data` entries built in
`streamlit_app.py`). -/
structure ImageRecord where
  name : String
  bytes : ByteSeq
deriving Repr, DecidableEq

/-- The per-image record produced by `extract_image_text`
(`services/extraction_service.py`): file name, OCR text, original bytes. -/
structure OcrItem where
  file_name : String
  ocr_text : String
  image_bytes : Option ByteSeq
deriving Repr, DecidableEq

/-- Embedding of `run_ocr` (`services/ocr_service.py`).  `openImage` models
`Image.open(io.BytesIO(image_bytes))` (which may raise a decode error) and
`recognize` models `pytesseract.image_to_string` (which may raise an engine
error); the wrapper strips the recognized text. -/
def run_ocr (openImage : ByteSeq → Except ExtractError Unit)
    (recognize : ByteSeq → String → Except ExtractError String)
    (image_bytes : ByteSeq) (lang : String) : Except ExtractError String := do
  let _ ← openImage image_bytes
  let text ← recognize image_bytes lang
  pure text.trim

/-- Embedding of `extract_image_text` (`services/extraction_service.py`):
runs OCR with language `"eng"` and packages the result. -/
def extract_image_text (openImage : ByteSeq → Except ExtractError Unit)
    (recognize : ByteSeq → String → Except ExtractError String)
    (image_bytes : ByteSeq) (file_name : String) : Except ExtractError OcrItem := do
  let ocr_text ← run_ocr openImage recognize image_bytes "eng"
  pure { file_name := file_name, ocr_text := ocr_text, image_bytes := some image_bytes }

/-- Failure modes of the batch step in `streamlit_app.py`:
`ThreadPoolExecutor(max_workers=0)` raises `ValueError`, and a failed
`future.result()` re-raises the worker's extraction error. -/
inductive BatchError where
  | valueError
  | extractionFailed (e : ExtractError)
deriving Repr, DecidableEq

/-- Embedding of the batch-extraction step of `streamlit_app.py`
(lines 425-439).  The pool is created with `max_workers = min(8, len(images_data))`;
Python's `ThreadPoolExecutor` raises `ValueError` when `max_workers <= 0`.
`completionOrder` models the nondeterministic order in which
`concurrent.futures.as_completed` yields the futures (callers relate it to
`images_data` by a permutation hypothesis); results are appended in completion
order and the first failing `future.result()` aborts the collection loop. -/
def extract_batch (openImage : ByteSeq → Except ExtractError Unit)
    (recognize : ByteSeq → String → Except ExtractError String)
    (images_data : List ImageRecord)
    (completionOrder : List ImageRecord) : Except BatchError (List OcrItem) :=
  let max_workers := min 8 images_data.length
  if max_workers = 0 then
    Except.error BatchError.valueError
  else
    match completionOrder.mapM
        (fun rec => extract_image_text openImage recognize rec.bytes rec.name) with
    | Except.error e => Except.error (BatchError.extractionFailed e)
    | Except.ok results => Except.ok results

/-! ### Dynamic Python values for the color parameters

`build_ocr_pdf` receives `title_color` / `body_color` as arbitrary Python
values and funnels them through `_normalize_color`, which calls `int(...)` on
the components; `int` raises `TypeError` / `ValueError` on non-numeric input. -/

/-- A dynamic Python value, as far as `_normalize_color` can observe it. -/
inductive PyVal where
  | int (n : Int)
  | float (q : ℚ)
  | str (s : String)
  | pyNone
  | tuple (xs : List PyVal)
  | list (xs : List PyVal)

/-- Python exceptions raised by `int(...)`. -/
inductive PyErr where
  | typeError
  | valueError
deriving Repr, DecidableEq

/-- Python `int(float)` truncates toward zero. -/
def pyTrunc (q : ℚ) : Int := if 0 ≤ q then ⌊q⌋ else ⌈q⌉

/-- Digit-string parsing used by Python `int(str)` (sign + decimal digits;
surrounding whitespace and underscores are not modelled). -/
def digitsToNat : List Char → Option Nat
  | [] => none
  | [c] => if c.isDigit then some (c.toNat - 48) else none
  | c :: rest => do
      let hd ← if c.isDigit then some (c.toNat - 48) else none
      let tl ← digitsToNat rest
      pure (hd * 10 ^ rest.length + tl)

/-- Python `int(str)`: optional sign followed by decimal digits. -/
def parseIntStr (s : String) : Option Int :=
  match s.data with
  | '-' :: rest => (digitsToNat rest).map (fun n => -(n : Int))
  | '+' :: rest => (digitsToNat rest).map (fun n => (n : Int))
  | ds => (digitsToNat ds).map (fun n => (n : Int))

/-- Python's `int(x)` builtin on a dynamic value: identity on ints, truncation
on floats, digit parsing on strings (`ValueError` otherwise), `TypeError` on
`None`, tuples and lists. -/
def pyInt : PyVal → Except PyErr Int
  | PyVal.int n => Except.ok n
  | PyVal.float q => Except.ok (pyTrunc q)
  | PyVal.str s =>
      match parseIntStr s with
      | some n => Except.ok n
      | none => Except.error PyErr.valueError
  | PyVal.pyNone => Except.error PyErr.typeError
  | PyVal.tuple _ => Except.error PyErr.typeError
  | PyVal.list _ => Except.error PyErr.typeError

/-- Python `isinstance(color, (tuple, list))` together with element access: `some`
of the elements when `color` is a tuple or a list, `none` otherwise. -/
def colorSeq? : PyVal → Option (List PyVal)
  | PyVal.tuple xs => some xs
  | PyVal.list xs => some xs
  | _ => none

/-- Embedding of `_normalize_color` (`services/pdf_service.py`, lines 23-30):
anything that is not a tuple/list of exactly 3 elements yields the fallback
`(0, 0, 0)`; otherwise the three components go through `int(...)`, which can
raise. -/
def _normalize_color (color : PyVal) : Except PyErr (Int × Int × Int) :=
  match colorSeq? color with
  | some [r, g, b] => do
      let ri ← pyInt r
      let gi ← pyInt g
      let bi ← pyInt b
      pure (ri, gi, bi)
  | some _ => Except.ok (0, 0, 0)
  | none => Except.ok (0, 0, 0)

/-! ### Latin-1 text substitution -/

/-- Per-character effect of Python's
`text.encode("latin-1", "replace").decode("latin-1")`: code points above 255
become `'?'`, everything else is unchanged. -/
def latin1Char (c : Char) : Char := if c.toNat ≤ 255 then c else '?'

/-- Embedding of `_to_latin1` (`services/pdf_service.py`, lines 11-20) on
string input (`build_ocr_pdf` only ever passes strings). -/
def _to_latin1 (s : String) : String := ⟨s.data.map latin1Char⟩

/-! ### The page-layout engine `build_ocr_pdf` -/

/-- External collaborators of `build_ocr_pdf`: the file system
(`os.path.isfile`), PIL decoding plus the temp-file save and `pdf.image` call
of the artwork `try` block (`decodeImage bs = some (w, h)` iff the whole block
succeeds with pixel size `(w, h)`; `none` iff any exception is raised in it),
the height consumed by the fixed demo-notice `multi_cell` (font-metric
dependent), and the FPDF page geometry `pdf.w` / `pdf.l_margin` /
`pdf.r_margin` for the chosen format and orientation. -/
structure RenderEnv where
  fileExists : String → Bool
  decodeImage : ByteSeq → Option (Nat × Nat)
  noticeHeight : ℚ
  pageW : ℚ
  lMargin : ℚ
  rMargin : ℚ

/-- The keyword parameters of `build_ocr_pdf` (`services/pdf_service.py`,
lines 33-49), with the source's defaults. -/
structure PdfConfig where
  logo_path : Option String := none
  logo_x : ℚ := 10
  logo_y : ℚ := 8
  logo_width : ℚ := 25
  page_format : String := "A4"
  orientation : String := "P"
  title_font_family : String := "Arial"
  title_font_size : ℚ := 14
  body_font_family : String := "Arial"
  body_font_size : ℚ := 11
  title_color : PyVal := PyVal.tuple [PyVal.int 15, PyVal.int 23, PyVal.int 42]
  body_color : PyVal := PyVal.tuple [PyVal.int 15, PyVal.int 23, PyVal.int 42]

/-- One logical page: everything the loop body of `build_ocr_pdf` draws or
computes for a single OCR item after its `add_page` call.  `image_placement`
is `some (x, y, w, h)` when the artwork image is drawn at position `(x, y)`
with rendered size `w × h` (in mm).  Because line 69 enables fpdf's automatic
page break, one logical page can span several physical PDF pages when a
`multi_cell` line crosses the break trigger; physical pagination is modelled
separately (`physical_page_count` below). -/
structure Page where
  file_name : String
  use_logo : Bool
  top_margin : ℚ
  notice_text : String
  current_y : ℚ
  image_placement : Option (ℚ × ℚ × ℚ × ℚ)
  text_start_y : ℚ
  body_text : String
deriving Repr, DecidableEq

/-- The fixed demo notice drawn on every page. -/
def demo_text : String := "This is a demo. Please contact the developer for full access."

/-- Embedding of `text_width = pdf.w - pdf.l_margin - pdf.r_margin` (line 101). -/
def textWidth (env : RenderEnv) : ℚ := env.pageW - env.lMargin - env.rMargin

/-- Embedding of `use_logo = logo_path is not None and os.path.isfile(logo_path)`
(line 72). -/
def useLogo (env : RenderEnv) (cfg : PdfConfig) : Bool :=
  match cfg.logo_path with
  | none => false
  | some p => env.fileExists p

/-- The body of the per-item loop of `build_ocr_pdf` (lines 80-154) for one
OCR item.  The demo notice is a `multi_cell` at `top_margin` followed by
`ln(2)`, so the cursor afterwards is `top_margin + noticeHeight + 2`.  The
artwork block runs only when `image_bytes` is truthy (present and non-empty);
its `try` succeeds iff `decodeImage` succeeds, with the source's `(0, 0) →
(1, 1)` size guard, and a pixel width of `0` raises `ZeroDivisionError`, which
the `except` swallows (no image drawn). -/
def buildPage (env : RenderEnv) (cfg : PdfConfig) (use_logo : Bool)
    (item : OcrItem) : Page :=
  let top_margin : ℚ := if use_logo then cfg.logo_y + cfg.logo_width + 2 else 20
  let text_width := textWidth env
  let current_y := top_margin + env.noticeHeight + 2
  let placement : Option (ℚ × ℚ × ℚ × ℚ) :=
    match item.image_bytes with
    | none => none
    | some bs =>
      if bs = [] then none
      else
        match env.decodeImage bs with
        | none => none
        | some (w0, h0) =>
          let wh := if (w0, h0) = (0, 0) then (1, 1) else (w0, h0)
          if wh.1 = 0 then none
          else
            let artwork_w : ℚ := min 120 (text_width * 0.8)
            let artwork_h : ℚ := artwork_w * (wh.2 : ℚ) / (wh.1 : ℚ)
            some ((env.pageW - artwork_w) / 2, current_y, artwork_w, artwork_h)
  let text_start_y :=
    match placement with
    | some (_, y, _, h) => y + h + 4
    | none => current_y
  { file_name := item.file_name
    use_logo := use_logo
    top_margin := top_margin
    notice_text := _to_latin1 demo_text
    current_y := current_y
    image_placement := placement
    text_start_y := text_start_y
    body_text := _to_latin1 (if item.ocr_text = "" then "[No text detected]" else item.ocr_text) }

/-- The sort relation of line 75: Python's stable `sorted` with
`key=lambda x: str(x.get("file_name", ""))` compares file names
lexicographically by code point, i.e. as their character lists. -/
def itemLE (a b : OcrItem) : Prop := a.file_name.data ≤ b.file_name.data

instance : DecidableRel itemLE :=
  fun a b => inferInstanceAs (Decidable (a.file_name.data ≤ b.file_name.data))

instance : IsTotal OcrItem itemLE := ⟨fun a b => le_total a.file_name.data b.file_name.data⟩

instance : IsTrans OcrItem itemLE := ⟨fun _ _ _ h1 h2 => le_trans h1 h2⟩

/-- The relation `itemLE` is the comparison on the `file_name` strings themselves. -/
theorem itemLE_iff (a b : OcrItem) : itemLE a b ↔ a.file_name ≤ b.file_name :=
  String.le_iff_toList_le.symm

/-- Embedding of `build_ocr_pdf` (`services/pdf_service.py`, lines 33-163):
normalize the two colors (which can raise through `int(...)`), decide logo
availability once, stably sort the items by file name (Python's `sorted` is
stable, as is `List.insertionSort`), and lay out one logical page per item
(one `add_page` call each).  The physical page count of the emitted PDF also
includes the automatic page breaks of line 69 and is modelled by
`physical_page_count` below. -/
def build_ocr_pdf (env : RenderEnv) (cfg : PdfConfig)
    (ocr_items : List OcrItem) : Except PyErr (List Page) :=
  match _normalize_color cfg.title_color, _normalize_color cfg.body_color with
  | Except.error e, _ => Except.error e
  | Except.ok _, Except.error e => Except.error e
  | Except.ok _, Except.ok _ =>
      Except.ok ((List.insertionSort itemLE ocr_items).map
        (buildPage env cfg (useLogo env cfg)))

/-! ### Physical pagination: fpdf's automatic page break

`build_ocr_pdf` calls `pdf.set_auto_page_break(auto=True, margin=15)` at line
69.  A `Page` above is the *logical* per-record layout started by `add_page`;
physically, every line a `multi_cell` writes is a cell of height 6 that first
checks `y + h > page_break_trigger` (with `page_break_trigger = pdf.h - 15`)
and, when it would cross, inserts an extra physical page and resets the cursor
to `pdf.t_margin`.  (`pdf.ln`, `set_xy` and `pdf.image` with an explicit `y`
perform no such check.)  So one logical page spans `1 +` (number of automatic
breaks during its two `multi_cell` calls) physical pages. -/

/-- Pagination-relevant state of the FPDF surface: physical page height
`pdf.h`, the top margin `pdf.t_margin` the cursor is reset to after an
automatic break, and the font-metric dependent wrapped line counts of the two
`multi_cell` calls (the fixed demo notice, and the body text as a function of
the drawn string). -/
structure PageBreakEnv where
  pageH : ℚ
  tMargin : ℚ
  noticeLines : Nat
  bodyLines : String → Nat

/-- `page_break_trigger = pdf.h - b_margin` with `b_margin = 15`
(line 69). -/
def pageBreakTrigger (page_h : ℚ) : ℚ := page_h - 15

/-- Writing one cell of height `h` at cursor `y`: fpdf first breaks the page
when `y + h > page_break_trigger` (cursor restarts at `t_margin`), then
advances the cursor by `h`.  Returns the new cursor and the number of
physical pages added (0 or 1). -/
def cellAdvance (page_h t_margin y h : ℚ) : ℚ × Nat :=
  if y + h > pageBreakTrigger page_h then (t_margin + h, 1) else (y + h, 0)

/-- A `multi_cell` of `n` wrapped lines of height `h` starting at cursor `y`:
the final cursor and the number of automatic page breaks. -/
def multiCellAdvance (page_h t_margin h : ℚ) : Nat → ℚ → ℚ × Nat
  | 0, y => (y, 0)
  | n + 1, y =>
      let step := cellAdvance page_h t_margin y h
      let rest := multiCellAdvance page_h t_margin h n step.1
      (rest.1, step.2 + rest.2)

/-- Number of physical PDF pages produced for one OCR item: the explicit
`add_page` plus the automatic breaks of the demo-notice `multi_cell` (line
108, starting at `top_margin`) and of the body-text `multi_cell` (line 149,
starting below the artwork image, whose `pdf.image` call with explicit `y`
never breaks).  The cursor flow mirrors the loop body of `build_ocr_pdf`
with the break-aware `get_y` after the notice. -/
def pagesForItem (env : RenderEnv) (pb : PageBreakEnv) (cfg : PdfConfig)
    (use_logo : Bool) (item : OcrItem) : Nat :=
  let page := buildPage env cfg use_logo item
  let notice := multiCellAdvance pb.pageH pb.tMargin 6 pb.noticeLines page.top_margin
  let current_y := notice.1 + 2
  let text_start_y :=
    match page.image_placement with
    | some (_, _, _, h) => current_y + h + 4
    | none => current_y
  let body := multiCellAdvance pb.pageH pb.tMargin 6 (pb.bodyLines page.body_text) text_start_y
  1 + notice.2 + body.2

/-- Total number of physical pages in the PDF emitted by `build_ocr_pdf`:
the sum, over the name-sorted items, of each item's physical pages. -/
def physical_page_count (env : RenderEnv) (pb : PageBreakEnv) (cfg : PdfConfig)
    (items : List OcrItem) : Nat :=
  ((List.insertionSort itemLE items).map
    (pagesForItem env pb cfg (useLogo env cfg))).sum

/-! ### Logo positioning (`streamlit_app.py`) -/

/-- Python `str.lower()` (the inputs here are plain ASCII). -/
def pyLower (s : String) : String := ⟨s.data.map Char.toLower⟩

/-- Python `str.startswith`. -/
def pyStartsWith (s p : String) : Bool := p.data.isPrefixOf s.data

/-- Python `str.endswith`. -/
def pyEndsWith (s p : String) : Bool := p.data.isSuffixOf s.data

/-- Embedding of `get_page_size_mm` (`streamlit_app.py`, lines 28-38):
`(width_mm, height_mm)` in portrait; Letter is 216×279, everything else
defaults to A4's 210×297. -/
def get_page_size_mm (page_format : String) : ℚ × ℚ :=
  if pyLower page_format = "letter" then (216, 279) else (210, 297)

/-- Embedding of `compute_logo_position` (`streamlit_app.py`, lines 41-70):
resolve a preset key to `(x, y)` against the physical page size, swapping
width and height for landscape, with a fixed 10 mm margin. -/
def compute_logo_position (position_key : String) (page_format : String)
    (orientation : String) (logo_width_mm : ℚ) : ℚ × ℚ :=
  let pq := get_page_size_mm page_format
  let pwph := if orientation = "L" then (pq.2, pq.1) else pq
  let page_w := pwph.1
  let page_h := pwph.2
  let margin : ℚ := 10
  let y := if pyStartsWith position_key "top" then margin
           else page_h - logo_width_mm - margin
  let x := if pyEndsWith position_key "left" then margin
           else if pyEndsWith position_key "right" then page_w - logo_width_mm - margin
           else (page_w - logo_width_mm) / 2
  (x, y)

/-! ### Settings persistence (`services/config_service.py`) -/

/-- A parsed JSON value, the possible outputs of `json.load`. -/
inductive Json where
  | null
  | bool (b : Bool)
  | num (q : ℚ)
  | str (s : String)
  | arr (xs : List Json)
  | obj (members : List (String × Json))

/-- Embedding of `load_user_settings` (`services/config_service.py`, lines
11-27).  `fileContent` models the file system at `CONFIG_PATH`: `none` when
`os.path.isfile` is false, otherwise the file's text.  `jsonLoad` models
`json.load`, with `none` for any exception of the `try` block (malformed
JSON, I/O error).  A result that is not a JSON object is discarded; every
branch returns (nothing escapes the `except Exception` handler). -/
def load_user_settings (fileContent : Option String)
    (jsonLoad : String → Option Json) : List (String × Json) :=
  match fileContent with
  | none => []
  | some content =>
    match jsonLoad content with
    | none => []
    | some data =>
      match data with
      | Json.obj members => members
      | _ => []

/-! ### Auxiliary predicates and concrete fixtures used by the theorems -/

/-- Numeric Python values (the inputs on which `int(...)` cannot raise). -/
def PyVal.isNumber : PyVal → Bool
  | PyVal.int _ => true
  | PyVal.float _ => true
  | _ => false

/-- The value of `int(...)` on a numeric Python value. -/
def pyIntNum : PyVal → Int
  | PyVal.int n => n
  | PyVal.float q => pyTrunc q
  | _ => 0

/-- The six logo position preset keys offered by the UI
(`pos_key_map` in `streamlit_app.py`). -/
def posKeys : List String :=
  ["top-left", "top-center", "top-right", "bottom-left", "bottom-center", "bottom-right"]

/-- A concrete rendering environment: no logo file on disk, no decodable
artwork, A4-portrait geometry with 10 mm margins and a one-line demo notice. -/
def demoEnv : RenderEnv :=
  { fileExists := fun _ => false
    decodeImage := fun _ => Option.none
    noticeHeight := 6
    pageW := 210
    lMargin := 10
    rMargin := 10 }

/-- A rendering environment whose image decoder yields a 400×200-pixel
image. -/
def artEnv : RenderEnv :=
  { fileExists := fun _ => false
    decodeImage := fun _ => some (400, 200)
    noticeHeight := 6
    pageW := 210
    lMargin := 10
    rMargin := 10 }

/-- A rendering environment whose file system contains every path (so a
configured logo is found). -/
def bottomLogoEnv : RenderEnv :=
  { fileExists := fun _ => true
    decodeImage := fun _ => Option.none
    noticeHeight := 6
    pageW := 210
    lMargin := 10
    rMargin := 10 }

/-- Pagination of an A4-portrait page (`pdf.h = 297`) with a 10 mm top margin
and single-line notice and body texts. -/
def a4Breaks : PageBreakEnv :=
  { pageH := 297
    tMargin := 10
    noticeLines := 1
    bodyLines := fun _ => 1 }

/-- The configuration produced by choosing the bottom-left logo preset on
portrait A4 with a 25 mm logo: `compute_logo_position "bottom-left" "A4" "P"
25 = (10, 262)`. -/
def bottomLogoCfg : PdfConfig :=
  { logo_path := some "assets/knb+art+advisory-3.webp"
    logo_x := 10
    logo_y := 262
    logo_width := 25 }

/-- A configuration whose `title_color` is a 3-element tuple of non-numeric
strings. -/
def badColorCfg : PdfConfig :=
  { title_color := PyVal.tuple [PyVal.str "a", PyVal.str "b", PyVal.str "c"] }

/-- Two OCR items with distinct file names, listed out of name order. -/
def demoItems2 : List OcrItem :=
  [⟨"b.jpg", "x", Option.none⟩, ⟨"a.jpg", "y", Option.none⟩]

/-- Two OCR items sharing one file name but carrying different texts. -/
def dupItemsA : List OcrItem :=
  [⟨"a.jpg", "t1", Option.none⟩, ⟨"a.jpg", "t2", Option.none⟩]

/-- The same two records as `dupItemsA`, submitted in the opposite order. -/
def dupItemsB : List OcrItem :=
  [⟨"a.jpg", "t2", Option.none⟩, ⟨"a.jpg", "t1", Option.none⟩]

/-! ### General lemmas about the embedding -/

/-- Characterization of a successful `build_ocr_pdf` run: the document is the
name-sorted item list mapped through the page builder. -/
theorem build_ocr_pdf_ok {env : RenderEnv} {cfg : PdfConfig} {items : List OcrItem}
    {doc : List Page} (h : build_ocr_pdf env cfg items = Except.ok doc) :
    doc = (List.insertionSort itemLE items).map (buildPage env cfg (useLogo env cfg)) := by
  unfold build_ocr_pdf at h
  split at h
  · exact absurd h (by simp)
  · exact absurd h (by simp)
  · exact (Except.ok.injEq _ _ ▸ h).symm

/-- The page builder preserves the file name. -/
theorem buildPage_file_name (env : RenderEnv) (cfg : PdfConfig) (use_logo : Bool)
    (item : OcrItem) : (buildPage env cfg use_logo item).file_name = item.file_name := rfl

/-- If some element of the list fails under `f`, then the whole `mapM` fails. -/
theorem mapM_error_of_exists {α β ε : Type} (f : α → Except ε β) :
    ∀ l : List α, (∃ x ∈ l, ∃ e, f x = Except.error e) →
      ∃ e, l.mapM f = Except.error e := by
  intro l
  induction l with
  | nil => rintro ⟨x, hx, _⟩; exact absurd hx (List.not_mem_nil x)
  | cons a l ih =>
    rintro ⟨x, hx, e, he⟩
    rw [List.mapM_cons]
    cases hfa : f a with
    | error e' => exact ⟨e', rfl⟩
    | ok b =>
      rcases List.mem_cons.mp hx with rfl | hxl
      · exact absurd he (by rw [hfa]; simp)
      · obtain ⟨e'', he''⟩ := ih ⟨x, hxl, e, he⟩
        refine ⟨e'', ?_⟩
        show (l.mapM f >>= fun bs => pure (b :: bs)) = Except.error e''
        rw [he'']
        rfl

/-! ### The claims -/

/-- C2 (counterexample): the claim as stated fails — the physical page count
of the emitted PDF can exceed the record count.  With the bottom-left logo
preset on portrait A4 (25 mm logo), `top_margin = 262 + 25 + 2 = 289`, and the
very first line of the demo-notice `multi_cell` has `289 + 6 > 297 - 15`, so
the auto page break of line 69 inserts a second physical page: one record
yields two pages. -/
theorem C2_counterexample :
    compute_logo_position "bottom-left" "A4" "P" 25 = (10, 262)
    ∧ physical_page_count bottomLogoEnv a4Breaks bottomLogoCfg
        [⟨"a.jpg", "", Option.none⟩] = 2
    ∧ ([(⟨"a.jpg", "", Option.none⟩ : OcrItem)]).length = 1 := by
  refine ⟨?_, ?_, rfl⟩
  · have h : compute_logo_position "bottom-left" "A4" "P" 25 = (10, 297 - 25 - 10) := rfl
    rw [h]
    norm_num
  · have hlogo : useLogo bottomLogoEnv bottomLogoCfg = true := rfl
    have hpage : (buildPage bottomLogoEnv bottomLogoCfg true
        ⟨"a.jpg", "", Option.none⟩).top_margin = 289 := by
      show (if (true : Bool) then (262 : ℚ) + 25 + 2 else 20) = 289
      norm_num
    have hno : (buildPage bottomLogoEnv bottomLogoCfg true
        ⟨"a.jpg", "", Option.none⟩).image_placement = Option.none := rfl
    simp only [physical_page_count, List.insertionSort, List.orderedInsert,
      List.map_cons, List.map_nil, List.sum_cons, List.sum_nil, hlogo,
      pagesForItem, hpage, hno, a4Breaks, multiCellAdvance, cellAdvance,
      pageBreakTrigger]
    norm_num

/-- C2 (amended): `build_ocr_pdf` starts exactly one logical page
(`add_page`) per record, so a produced document has one `Page` per record and
the physical page count is at least the record count; the physical page count
equals the record count exactly in the no-overflow regime, i.e. when every
record's rendering triggers no automatic page break.  In general the
automatic page break of line 69 makes the physical count exceed the record
count (long OCR text or bottom logo presets). -/
theorem C2_page_count (env : RenderEnv) (pb : PageBreakEnv) (cfg : PdfConfig)
    (items : List OcrItem) :
    (∀ doc : List Page, build_ocr_pdf env cfg items = Except.ok doc →
        doc.length = items.length)
    ∧ items.length ≤ physical_page_count env pb cfg items
    ∧ ((∀ item ∈ items, pagesForItem env pb cfg (useLogo env cfg) item = 1) →
        physical_page_count env pb cfg items = items.length) := by
  refine ⟨fun doc h => ?_, ?_, fun hall => ?_⟩
  · rw [build_ocr_pdf_ok h, List.length_map,
      (List.perm_insertionSort itemLE items).length_eq]
  · have hone : ∀ n ∈ (List.insertionSort itemLE items).map
        (pagesForItem env pb cfg (useLogo env cfg)), 1 ≤ n := by
      rintro n hn
      obtain ⟨item, -, rfl⟩ := List.mem_map.mp hn
      exact le_trans (Nat.le_add_right 1 _) (Nat.le_add_right _ _)
    calc items.length
        = ((List.insertionSort itemLE items).map
            (pagesForItem env pb cfg (useLogo env cfg))).length := by
          rw [List.length_map, (List.perm_insertionSort itemLE items).length_eq]
      _ ≤ _ := List.length_le_sum_of_one_le _ hone
  · unfold physical_page_count
    have hmap : (List.insertionSort itemLE items).map
        (pagesForItem env pb cfg (useLogo env cfg)) =
        (List.insertionSort itemLE items).map (fun _ => 1) :=
      List.map_congr_left fun item hitem =>
        hall item ((List.perm_insertionSort itemLE items).subset hitem)
    rw [hmap, List.map_const', List.sum_replicate, smul_eq_mul, mul_one,
      (List.perm_insertionSort itemLE items).length_eq]

/-- Witness for C2: a two-record batch with a top logo anchor and single-line
texts stays within the break trigger, so the logical and physical page counts
both equal the record count. -/
theorem C2_page_count_witness :
    ((List.insertionSort itemLE demoItems2).map
        (buildPage demoEnv {} (useLogo demoEnv {}))).length = demoItems2.length
    ∧ physical_page_count demoEnv a4Breaks {} demoItems2 = demoItems2.length := by
  refine ⟨(C2_page_count demoEnv a4Breaks {} demoItems2).1 _ rfl,
    (C2_page_count demoEnv a4Breaks {} demoItems2).2.2 ?_⟩
  intro item hitem
  have hlogo : useLogo demoEnv ({} : PdfConfig) = false := rfl
  have htop : ∀ it : OcrItem,
      (buildPage demoEnv {} false it).top_margin = 20 := fun _ => rfl
  have hno : ∀ it : OcrItem, it.image_bytes = Option.none →
      (buildPage demoEnv {} false it).image_placement = Option.none := by
    intro it hbs
    show (match it.image_bytes with
      | Option.none => Option.none
      | some bs => if bs = [] then Option.none else
          match demoEnv.decodeImage bs with
          | Option.none => Option.none
          | some (w0, h0) =>
            let wh := if (w0, h0) = (0, 0) then (1, 1) else (w0, h0)
            if wh.1 = 0 then Option.none
            else
              let artwork_w : ℚ := min 120 (textWidth demoEnv * 0.8)
              let artwork_h : ℚ := artwork_w * (wh.2 : ℚ) / (wh.1 : ℚ)
              some ((demoEnv.pageW - artwork_w) / 2,
                (buildPage demoEnv {} false it).current_y, artwork_w, artwork_h)) =
      Option.none
    rw [hbs]
  fin_cases hitem <;>
    · simp only [hlogo, pagesForItem, htop, hno, a4Breaks,
        multiCellAdvance, cellAdvance, pageBreakTrigger]
      norm_num

/-- C3 (evidence of the divergence): invoking the batch-extraction step on an
empty image sequence does not return an empty result sequence — the pool is
created with `max_workers = min(8, 0) = 0`, which makes `ThreadPoolExecutor`
raise `ValueError`. -/
theorem C3_empty_batch_raises
    (openImage : ByteSeq → Except ExtractError Unit)
    (recognize : ByteSeq → String → Except ExtractError String) :
    extract_batch openImage recognize [] [] = Except.error BatchError.valueError :=
  rfl

/-- C7: on every page of a produced document, the vertical anchor
`top_margin` equals `logo_y + logo_width + 2` when a logo is configured and
its file exists (`useLogo`), and the fixed value `20` otherwise. -/
theorem C7_top_margin (env : RenderEnv) (cfg : PdfConfig) (items : List OcrItem)
    (doc : List Page) (page : Page)
    (h : build_ocr_pdf env cfg items = Except.ok doc) (hp : page ∈ doc) :
    page.top_margin =
      if useLogo env cfg then cfg.logo_y + cfg.logo_width + 2 else 20 := by
  rw [build_ocr_pdf_ok h] at hp
  obtain ⟨item, -, rfl⟩ := List.mem_map.mp hp
  rfl

/-- Witness for C7: with no logo file on disk the anchor is 20. -/
theorem C7_top_margin_witness :
    (buildPage demoEnv {} (useLogo demoEnv {}) ⟨"a.jpg", "x", Option.none⟩).top_margin = 20 :=
  (C7_top_margin demoEnv {} [⟨"a.jpg", "x", Option.none⟩] _ _ rfl
    (List.mem_singleton.mpr rfl)).trans rfl

/-- The pages produced from a sorted item list are sorted by file name. -/
theorem build_pages_sorted (env : RenderEnv) (cfg : PdfConfig) (items : List OcrItem) :
    List.Sorted (fun p q : Page => p.file_name ≤ q.file_name)
      ((List.insertionSort itemLE items).map (buildPage env cfg (useLogo env cfg))) :=
  List.Pairwise.map _ (fun a b h => (itemLE_iff a b).mp h)
    (List.sorted_insertionSort itemLE items)

/-- The file names of a sorted item list are sorted. -/
theorem sorted_names (items : List OcrItem) :
    List.Sorted (· ≤ ·) ((List.insertionSort itemLE items).map OcrItem.file_name) :=
  List.Pairwise.map _ (fun a b h => (itemLE_iff a b).mp h)
    (List.sorted_insertionSort itemLE items)

/-- Sorting is permutation-invariant when the sort keys are pairwise
distinct. -/
theorem insertionSort_eq_of_perm_of_nodup_keys {items1 items2 : List OcrItem}
    (hperm : items1.Perm items2) (hnd : (items1.map OcrItem.file_name).Nodup) :
    List.insertionSort itemLE items1 = List.insertionSort itemLE items2 := by
  have hlt : IsAntisymm OcrItem (fun a b => a.file_name < b.file_name) :=
    ⟨fun _ _ h1 h2 => absurd h2 (lt_asymm h1)⟩
  have hsymm : Symmetric (fun a b : OcrItem => a.file_name ≠ b.file_name) :=
    fun _ _ h => fun e => h e.symm
  have hne1 : List.Pairwise (fun a b : OcrItem => a.file_name ≠ b.file_name) items1 :=
    List.pairwise_map.mp hnd
  have strict : ∀ items : List OcrItem,
      List.Pairwise (fun a b : OcrItem => a.file_name ≠ b.file_name) items →
      List.Pairwise (fun a b : OcrItem => a.file_name < b.file_name)
        (List.insertionSort itemLE items) := by
    intro items hne
    have hne' := (((List.perm_insertionSort itemLE items).pairwise_iff
      (fun h => hsymm h)).mpr hne)
    exact ((List.sorted_insertionSort itemLE items).and hne').imp
      (fun h => lt_of_le_of_ne ((itemLE_iff _ _).mp h.1) h.2)
  have hne2 : List.Pairwise (fun a b : OcrItem => a.file_name ≠ b.file_name) items2 :=
    (hperm.pairwise_iff (fun h => hsymm h)).mp hne1
  exact @List.eq_of_perm_of_sorted OcrItem (fun a b => a.file_name < b.file_name) hlt _ _
    ((List.perm_insertionSort itemLE items1).trans
      (hperm.trans (List.perm_insertionSort itemLE items2).symm))
    (strict items1 hne1) (strict items2 hne2)

/-- C1 (counterexample): the claim as stated fails. The two batches below are
permutations of the same records, yet `build_ocr_pdf` produces different page
sequences: the records share the file name `"a.jpg"` with different texts, and
the stable sort keeps them in submission order. -/
theorem C1_counterexample :
    dupItemsA.Perm dupItemsB ∧
      (build_ocr_pdf demoEnv {} dupItemsA).toOption.map (fun doc => doc.map Page.body_text) ≠
        (build_ocr_pdf demoEnv {} dupItemsB).toOption.map (fun doc => doc.map Page.body_text) :=
  ⟨by decide, by decide⟩

/-- C1 (amended): pages always appear in ascending order of file name; the
sequence of page file names is the same for every permutation of the input
records; and when the records' file names are pairwise distinct the whole
output document is the same for every permutation of the input. -/
theorem C1_pages_sorted_by_name :
    (∀ (env : RenderEnv) (cfg : PdfConfig) (items : List OcrItem) (doc : List Page),
      build_ocr_pdf env cfg items = Except.ok doc →
      List.Sorted (fun p q : Page => p.file_name ≤ q.file_name) doc)
    ∧ (∀ (env : RenderEnv) (cfg : PdfConfig) (items1 items2 : List OcrItem)
        (doc1 doc2 : List Page), items1.Perm items2 →
        build_ocr_pdf env cfg items1 = Except.ok doc1 →
        build_ocr_pdf env cfg items2 = Except.ok doc2 →
        doc1.map Page.file_name = doc2.map Page.file_name)
    ∧ (∀ (env : RenderEnv) (cfg : PdfConfig) (items1 items2 : List OcrItem),
        items1.Perm items2 → (items1.map OcrItem.file_name).Nodup →
        build_ocr_pdf env cfg items1 = build_ocr_pdf env cfg items2) := by
  refine ⟨?_, ?_, ?_⟩
  · intro env cfg items doc h
    rw [build_ocr_pdf_ok h]
    exact build_pages_sorted env cfg items
  · intro env cfg items1 items2 doc1 doc2 hperm h1 h2
    have hanti : IsAntisymm String (· ≤ ·) := ⟨fun _ _ => le_antisymm⟩
    rw [build_ocr_pdf_ok h1, build_ocr_pdf_ok h2, List.map_map, List.map_map]
    exact @List.eq_of_perm_of_sorted String (· ≤ ·) hanti _ _
      (((List.perm_insertionSort itemLE items1).map _).trans
        ((hperm.map _).trans ((List.perm_insertionSort itemLE items2).map _).symm))
      (sorted_names items1) (sorted_names items2)
  · intro env cfg items1 items2 hperm hnd
    unfold build_ocr_pdf
    rw [insertionSort_eq_of_perm_of_nodup_keys hperm hnd]

/-- Witness for C1: concrete two-record batches with distinct names. -/
theorem C1_pages_sorted_by_name_witness :
    List.Sorted (fun p q : Page => p.file_name ≤ q.file_name)
      ((List.insertionSort itemLE demoItems2).map
        (buildPage demoEnv {} (useLogo demoEnv {})))
    ∧ build_ocr_pdf demoEnv {} demoItems2 =
        build_ocr_pdf demoEnv {} [⟨"a.jpg", "y", Option.none⟩, ⟨"b.jpg", "x", Option.none⟩] :=
  ⟨C1_pages_sorted_by_name.1 demoEnv {} demoItems2 _ rfl,
    C1_pages_sorted_by_name.2.2 demoEnv {} demoItems2
      [⟨"a.jpg", "y", Option.none⟩, ⟨"b.jpg", "x", Option.none⟩] (by decide) (by decide)⟩

/-- C4: if the extraction of any single image in a batch fails (a
`DecodeError` or `EngineError` from `extract_image_text`), the whole batch
fails: the batch call surfaces an extraction failure and no result list is
ever produced for document building. -/
theorem C4_fail_fast
    (openImage : ByteSeq → Except ExtractError Unit)
    (recognize : ByteSeq → String → Except ExtractError String)
    (images_data completionOrder : List ImageRecord)
    (hperm : completionOrder.Perm images_data)
    (hfail : ∃ rec ∈ images_data, ∃ e,
      extract_image_text openImage recognize rec.bytes rec.name = Except.error e) :
    (∃ e, extract_batch openImage recognize images_data completionOrder =
        Except.error (BatchError.extractionFailed e))
    ∧ ∀ results, extract_batch openImage recognize images_data completionOrder ≠
        Except.ok results := by
  obtain ⟨rec, hrec, e, he⟩ := hfail
  have hlen : images_data.length ≠ 0 :=
    fun h0 => by rw [List.length_eq_zero.mp h0] at hrec; exact List.not_mem_nil rec hrec
  have hmin : ¬ (min 8 images_data.length = 0) := by omega
  obtain ⟨e', he'⟩ := mapM_error_of_exists
    (fun r : ImageRecord => extract_image_text openImage recognize r.bytes r.name)
    completionOrder ⟨rec, hperm.mem_iff.mpr hrec, e, he⟩
  have hmain : extract_batch openImage recognize images_data completionOrder =
      Except.error (BatchError.extractionFailed e') := by
    unfold extract_batch
    rw [if_neg hmin, he']
  exact ⟨⟨e', hmain⟩, fun results hok => by rw [hmain] at hok; exact Except.noConfusion hok⟩

/-- Witness for C4: a one-image batch whose extraction hits a decode error. -/
theorem C4_fail_fast_witness :
    ∃ e, extract_batch (fun _ => Except.error ExtractError.decodeError)
        (fun _ _ => Except.ok "") [⟨"a.jpg", [0]⟩] [⟨"a.jpg", [0]⟩] =
      Except.error (BatchError.extractionFailed e) :=
  (C4_fail_fast (fun _ => Except.error ExtractError.decodeError) (fun _ _ => Except.ok "")
    [⟨"a.jpg", [0]⟩] [⟨"a.jpg", [0]⟩] (List.Perm.refl _)
    ⟨⟨"a.jpg", [0]⟩, List.mem_singleton.mpr rfl, ExtractError.decodeError, rfl⟩).1

/-- Every character surviving the latin-1 substitution is single-byte. -/
theorem latin1Char_le (c : Char) : (latin1Char c).toNat ≤ 255 := by
  unfold latin1Char
  split
  · assumption
  · decide

/-- C5: on every rendered page, empty extracted text is replaced by the
literal placeholder `"[No text detected]"`; non-empty text is drawn after the
latin-1 substitution, which maps every character outside the single-byte
repertoire to `'?'` and never fails; every drawn character is single-byte. -/
theorem C5_text_rendering (env : RenderEnv) (cfg : PdfConfig) (use_logo : Bool)
    (item : OcrItem) :
    (item.ocr_text = "" → (buildPage env cfg use_logo item).body_text = "[No text detected]")
    ∧ (item.ocr_text ≠ "" →
        (buildPage env cfg use_logo item).body_text = _to_latin1 item.ocr_text)
    ∧ (item.ocr_text ≠ "" →
        (buildPage env cfg use_logo item).body_text.data =
          item.ocr_text.data.map latin1Char)
    ∧ (∀ c ∈ (buildPage env cfg use_logo item).body_text.data, c.toNat ≤ 255) := by
  refine ⟨fun h => ?_, fun h => ?_, fun h => ?_, fun c hc => ?_⟩
  · show _to_latin1 (if item.ocr_text = "" then "[No text detected]" else item.ocr_text) =
      "[No text detected]"
    rw [if_pos h]
    rfl
  · show _to_latin1 (if item.ocr_text = "" then "[No text detected]" else item.ocr_text) =
      _to_latin1 item.ocr_text
    rw [if_neg h]
  · show (_to_latin1 (if item.ocr_text = "" then "[No text detected]" else item.ocr_text)).data =
      item.ocr_text.data.map latin1Char
    rw [if_neg h]
    rfl
  · have : (buildPage env cfg use_logo item).body_text.data =
        (if item.ocr_text = "" then "[No text detected]" else item.ocr_text).data.map
          latin1Char := rfl
    rw [this] at hc
    obtain ⟨c', -, rfl⟩ := List.mem_map.mp hc
    exact latin1Char_le c'

/-- Witness for C5: empty text yields the placeholder, text with a character
above the latin-1 range (`'✓'`) is drawn with that character replaced by
`'?'`. -/
theorem C5_text_rendering_witness :
    (buildPage demoEnv {} false ⟨"a.jpg", "", Option.none⟩).body_text = "[No text detected]"
    ∧ (buildPage demoEnv {} false ⟨"b.jpg", "héllo ✓", Option.none⟩).body_text = "héllo ?" :=
  ⟨(C5_text_rendering demoEnv {} false ⟨"a.jpg", "", Option.none⟩).1 rfl,
    ((C5_text_rendering demoEnv {} false ⟨"b.jpg", "héllo ✓", Option.none⟩).2.1
      (by decide)).trans rfl⟩

/-- C6: for every decodable artwork image of pixel size `w × h` with `w > 0`,
the rendered width is `min(120, 0.8 * text_width)` (with `text_width` the
page width minus both margins) and the rendered height is
`rendered_width * h / w`. -/
theorem C6_image_scaling (env : RenderEnv) (cfg : PdfConfig) (use_logo : Bool)
    (item : OcrItem) (bs : ByteSeq) (w h : Nat)
    (hbs : item.image_bytes = some bs) (hne : bs ≠ [])
    (hdec : env.decodeImage bs = some (w, h)) (hw : 0 < w) :
    ∃ x y, (buildPage env cfg use_logo item).image_placement =
      some (x, y, min 120 (textWidth env * 0.8),
        min 120 (textWidth env * 0.8) * (h : ℚ) / (w : ℚ)) := by
  have hw0 : w ≠ 0 := hw.ne'
  refine ⟨(env.pageW - min 120 (textWidth env * 0.8)) / 2,
    (if use_logo then cfg.logo_y + cfg.logo_width + 2 else 20) + env.noticeHeight + 2, ?_⟩
  simp only [buildPage, hbs, hdec, if_neg hne, Prod.mk.injEq, hw0, false_and, if_false]

/-- Witness for C6: a 400×200-pixel image on an A4 page with 10 mm margins is
rendered at width 120 mm and height 60 mm. -/
theorem C6_image_scaling_witness :
    ∃ x y, (buildPage artEnv {} false ⟨"a.jpg", "", some [1]⟩).image_placement =
      some (x, y, 120, 60) := by
  obtain ⟨x, y, hp⟩ := C6_image_scaling artEnv {} false ⟨"a.jpg", "", some [1]⟩
    [1] 400 200 rfl (by decide) rfl (by norm_num)
  refine ⟨x, y, hp.trans ?_⟩
  have h1 : min (120 : ℚ) (textWidth artEnv * 0.8) = 120 := by
    norm_num [textWidth, artEnv]
  rw [h1]
  norm_num

/-- C8: for every logo position preset key, page format in {A4, Letter},
orientation in {portrait, landscape} and logo width, the computed logo
coordinates keep the fixed 10 mm margin against the page's physical
dimensions, swapped when landscape: left/top edge at 10, right edge at
`page_width − logo_width − 10`, bottom edge at `page_height − logo_width − 10`,
and horizontal center at `(page_width − logo_width) / 2`. -/
theorem C8_logo_presets (k f o : String) (w : ℚ)
    (hk : k ∈ posKeys) (hf : f ∈ ["A4", "letter"]) (ho : o ∈ ["P", "L"]) :
    compute_logo_position k f o w =
      ((if k ∈ ["top-left", "bottom-left"] then 10
        else if k ∈ ["top-right", "bottom-right"] then
          (if o = "L" then (if f = "letter" then 279 else 297)
           else (if f = "letter" then 216 else 210)) - w - 10
        else ((if o = "L" then (if f = "letter" then 279 else 297)
               else (if f = "letter" then 216 else 210)) - w) / 2),
       (if k ∈ ["top-left", "top-center", "top-right"] then 10
        else (if o = "L" then (if f = "letter" then 216 else 210)
              else (if f = "letter" then 279 else 297)) - w - 10)) := by
  fin_cases hk <;> fin_cases hf <;> fin_cases ho <;> rfl

/-- Witness for C8: the bottom-right preset on landscape Letter. -/
theorem C8_logo_presets_witness :
    compute_logo_position "bottom-right" "letter" "L" 25 = (279 - 25 - 10, 216 - 25 - 10) :=
  C8_logo_presets "bottom-right" "letter" "L" 25 (by decide) (by decide) (by decide)

/-- C9: loading the persisted user settings never raises: a missing settings
file, malformed content, or valid JSON that is not an object all yield the
empty settings object; a JSON object yields its members. -/
theorem C9_settings_load (jsonLoad : String → Option Json) :
    (load_user_settings Option.none jsonLoad = [])
    ∧ (∀ content, jsonLoad content = Option.none →
        load_user_settings (some content) jsonLoad = [])
    ∧ (∀ content j, jsonLoad content = some j → (∀ members, j ≠ Json.obj members) →
        load_user_settings (some content) jsonLoad = [])
    ∧ (∀ content members, jsonLoad content = some (Json.obj members) →
        load_user_settings (some content) jsonLoad = members) := by
  have hred : ∀ content, load_user_settings (some content) jsonLoad =
      (match jsonLoad content with
       | Option.none => []
       | some data =>
         match data with
         | Json.obj members => members
         | _ => []) := fun _ => rfl
  refine ⟨rfl, fun content hc => ?_, fun content j hc hj => ?_, fun content members hc => ?_⟩
  · rw [hred, hc]
  · rw [hred, hc]
    cases j with
    | obj members => exact absurd rfl (hj members)
    | null => rfl
    | bool b => rfl
    | num q => rfl
    | str s => rfl
    | arr xs => rfl
  · rw [hred, hc]

/-- Witness for C9: missing file, malformed JSON and a JSON array all load as
the empty settings object. -/
theorem C9_settings_load_witness :
    load_user_settings Option.none (fun _ => some (Json.arr [])) = []
    ∧ load_user_settings (some "not json") (fun _ => Option.none) = []
    ∧ load_user_settings (some "[]") (fun _ => some (Json.arr [])) = [] :=
  ⟨(C9_settings_load (fun _ => some (Json.arr []))).1,
    (C9_settings_load (fun _ => Option.none)).2.1 "not json" rfl,
    (C9_settings_load (fun _ => some (Json.arr []))).2.2.1 "[]" (Json.arr []) rfl
      (fun members h => by injection h)⟩

/-- Python `int(...)` succeeds on every numeric Python value. -/
theorem pyInt_of_isNumber (v : PyVal) (h : v.isNumber) : pyInt v = Except.ok (pyIntNum v) := by
  cases v with
  | int n => rfl
  | float q => rfl
  | str s => exact absurd h (by simp [PyVal.isNumber])
  | pyNone => exact absurd h (by simp [PyVal.isNumber])
  | tuple xs => exact absurd h (by simp [PyVal.isNumber])
  | list xs => exact absurd h (by simp [PyVal.isNumber])

/-- C10 (counterexample): the claim as stated fails — `build_ocr_pdf` does
fail on a malformed color value: a `title_color` that is a 3-element tuple of
non-numeric strings makes `int(...)` raise `ValueError` inside
`_normalize_color`. -/
theorem C10_counterexample :
    build_ocr_pdf demoEnv badColorCfg [] = Except.error PyErr.valueError := rfl

/-- C10 (amended): `_normalize_color` returns the fallback `(0, 0, 0)` for
every input that is not a tuple or list of exactly 3 elements, and returns
the three components cast to integers for every 3-element tuple or list of
numbers; however it is not total on arbitrary malformed input — a 3-element
tuple or list with a non-numeric component makes `int(...)` raise, so
`build_ocr_pdf` can fail on such a color configuration value. -/
theorem C10_normalize_color :
    (∀ c : PyVal, colorSeq? c = Option.none → _normalize_color c = Except.ok (0, 0, 0))
    ∧ (∀ c xs, colorSeq? c = some xs → xs.length ≠ 3 →
        _normalize_color c = Except.ok (0, 0, 0))
    ∧ (∀ r g b : PyVal, r.isNumber → g.isNumber → b.isNumber →
        _normalize_color (PyVal.tuple [r, g, b]) =
          Except.ok (pyIntNum r, pyIntNum g, pyIntNum b)
        ∧ _normalize_color (PyVal.list [r, g, b]) =
          Except.ok (pyIntNum r, pyIntNum g, pyIntNum b))
    ∧ (∃ (env : RenderEnv) (cfg : PdfConfig) (e : PyErr),
        build_ocr_pdf env cfg [] = Except.error e) := by
  refine ⟨fun c hc => ?_, fun c xs hc hlen => ?_, fun r g b hr hg hb => ?_,
    demoEnv, badColorCfg, PyErr.valueError, rfl⟩
  · unfold _normalize_color
    rw [hc]
  · unfold _normalize_color
    rw [hc]
    match xs, hlen with
    | [], _ => rfl
    | [_], _ => rfl
    | [_, _], _ => rfl
    | [_, _, _], hlen => exact absurd rfl hlen
    | _ :: _ :: _ :: _ :: _, _ => rfl
  · constructor
    · show (do
          let ri ← pyInt r
          let gi ← pyInt g
          let bi ← pyInt b
          pure (ri, gi, bi) : Except PyErr (Int × Int × Int)) = _
      rw [pyInt_of_isNumber r hr, pyInt_of_isNumber g hg, pyInt_of_isNumber b hb]
      rfl
    · show (do
          let ri ← pyInt r
          let gi ← pyInt g
          let bi ← pyInt b
          pure (ri, gi, bi) : Except PyErr (Int × Int × Int)) = _
      rw [pyInt_of_isNumber r hr, pyInt_of_isNumber g hg, pyInt_of_isNumber b hb]
      rfl

/-- Witness for C10 (amended): a non-sequence value, a wrong-length tuple and
a numeric triple. -/
theorem C10_normalize_color_witness :
    _normalize_color PyVal.pyNone = Except.ok (0, 0, 0)
    ∧ _normalize_color (PyVal.tuple []) = Except.ok (0, 0, 0)
    ∧ _normalize_color (PyVal.tuple [PyVal.int 10, PyVal.int 20, PyVal.int 30]) =
        Except.ok (10, 20, 30) :=
  ⟨C10_normalize_color.1 PyVal.pyNone rfl,
    C10_normalize_color.2.1 (PyVal.tuple []) [] rfl (by decide),
    (C10_normalize_color.2.2.1 (PyVal.int 10) (PyVal.int 20) (PyVal.int 30)
      rfl rfl rfl).1⟩

end ArtworkCatalog
